import Mathlib

set_option maxRecDepth 10000
set_option maxHeartbeats 1600000

/-!
Verification of the pystemd property-set compiler (`signature_array` in
`pystemd/systemd1/unit_signatures.py`) and its catalog of unit-property
signatures, together with a model of the scoped-acquisition contract of
`SDObject`.  Python values are embedded as the inductive `Value`; the
argument-token streams handed to the bus transport are lists of
`(type-code, payload)` pairs; exceptions are embedded as `Except`.
-/

/-- A Python value as it appears in property mappings handed to the
property-set compiler: integers, byte strings, text strings, booleans,
lists, tuples, and variant pairs (an inner signature with its value).
Numeric durations are modelled as integers. -/
inductive Value where
  | vInt (k : Int) : Value
  | vBytes (s : String) : Value
  | vStr (s : String) : Value
  | vBool (b : Bool) : Value
  | vList (xs : List Value) : Value
  | vTuple (xs : List Value) : Value
  | vVariant (sig : String) (v : Value) : Value

/-- The payload half of an argument token: a byte string, an integer, or a
boolean.  Structural close markers carry no payload (`none`). -/
inductive Payload where
  | pBytes (s : String) : Payload
  | pInt (k : Int) : Payload
  | pBool (b : Bool) : Payload
deriving DecidableEq

/-- One argument token `(type-code, payload)`: the type code is the numeric
character code of the wire-type letter (97 = array, 114 = struct, 115 =
string, 118 = variant, ...) or `-1` for a close marker. -/
abbrev Token := Int × Option Payload

/-- Failures of the compiler and encoder: a catalog lookup failure
(Python `KeyError`) naming the missing property, a transformation applied
to a value of the wrong shape (Python `TypeError`), or an encoding
failure. -/
inductive SigError where
  | keyError (name : String) : SigError
  | typeError (name : String) : SigError
  | encodeError (msg : String) : SigError
deriving DecidableEq

/-- A parsed wire-type: primitive character, array, struct, variant, or
dict-entry. -/
inductive SigT where
  | prim (c : Char) : SigT
  | arr (elem : SigT) : SigT
  | struct (fields : List SigT) : SigT
  | variant : SigT
  | dictEntry (key val : SigT) : SigT

/-- The primitive wire-type letters of the signature grammar: boolean,
byte, integer widths, unsigned 32/64, string-likes, file descriptor. -/
def primChar (c : Char) : Bool :=
  c = 'y' || c = 'b' || c = 'n' || c = 'q' || c = 'i' || c = 'u' || c = 'x' ||
  c = 't' || c = 'h' || c = 's' || c = 'o' || c = 'g'

/-- Parsing modes of the signature parser: one complete type, a
paren-terminated struct body, or the whole remaining input. -/
inductive PMode where
  | one : PMode
  | untilParen : PMode
  | untilEnd : PMode

/-- Modelled from the spec: the wire-type grammar of section 4.2 (the
signature parser lives in `pystemd.dbuslib`, which is not under `src/`).
One fuel-counted step parses `a<T>`, `(<T1>...<Tn>)`, `{<K><V>}`, `v`, or
a primitive letter, returning the parsed types and the unconsumed
characters. -/
def parseStep : Nat → PMode → List Char → Option (List SigT × List Char)
  | 0, _, _ => none
  | fuel + 1, .one, cs =>
    match cs with
    | 'a' :: rest =>
      (parseStep fuel .one rest).bind fun tr =>
        match tr with
        | ([t], r) => some ([.arr t], r)
        | _ => none
    | '(' :: rest =>
      (parseStep fuel .untilParen rest).bind fun tr => some ([.struct tr.1], tr.2)
    | '{' :: rest =>
      (parseStep fuel .one rest).bind fun tr1 =>
        (parseStep fuel .one tr1.2).bind fun tr2 =>
          match tr1.1, tr2.1, tr2.2 with
          | [k], [w], '}' :: r3 => some ([.dictEntry k w], r3)
          | _, _, _ => none
    | 'v' :: rest => some ([.variant], rest)
    | c :: rest => if primChar c then some ([.prim c], rest) else none
    | [] => none
  | fuel + 1, .untilParen, cs =>
    match cs with
    | ')' :: rest => some ([], rest)
    | _ =>
      (parseStep fuel .one cs).bind fun tr1 =>
        (parseStep fuel .untilParen tr1.2).bind fun tr2 =>
          some (tr1.1 ++ tr2.1, tr2.2)
  | fuel + 1, .untilEnd, cs =>
    match cs with
    | [] => some ([], [])
    | _ =>
      (parseStep fuel .one cs).bind fun tr1 =>
        (parseStep fuel .untilEnd tr1.2).bind fun tr2 =>
          some (tr1.1 ++ tr2.1, tr2.2)

/-- Parse a full signature string into its list of complete types; `none`
on a malformed signature.  The fuel bound `2 * length + 4` dominates the
parser recursion depth, which consumes at least one character every two
steps. -/
def parseSig (s : String) : Option (List SigT) :=
  (parseStep (2 * s.length + 4) .untilEnd s.data).map Prod.fst

mutual
/-- Print a parsed wire-type back to its signature string. -/
def sigStr : SigT → String
  | .prim c => String.mk [c]
  | .arr e => "a" ++ sigStr e
  | .struct ts => "(" ++ sigStrL ts ++ ")"
  | .variant => "v"
  | .dictEntry k w => "\x7b" ++ sigStr k ++ sigStr w ++ "\x7d"

/-- Print a list of wire-types as their concatenated signature string. -/
def sigStrL : List SigT → String
  | [] => ""
  | t :: ts => sigStr t ++ sigStrL ts
end

/-- Reduce a string-valued `Value` (text or bytes) to its canonical byte
content; `none` for non-strings.  Text and bytes carry the same `String`
content in this embedding, so the spec's "single canonical byte
representation" is the identity on that content. -/
def canonStr : Value → Option String
  | .vBytes s => some s
  | .vStr s => some s
  | _ => none

/-- Modelled from the spec: primitive encoding (section 8: a primitive
type paired with a matching value yields exactly one payload token whose
type code is the primitive letter); a primitive paired with a value of the
wrong kind is an encoding failure, never a coercion. -/
def encodePrim (c : Char) (v : Value) : Except SigError (List Token) :=
  if c = 'b' then
    match v with
    | .vBool x => .ok [(98, some (.pBool x))]
    | _ => .error (.encodeError "bool expected")
  else if c = 's' || c = 'o' || c = 'g' then
    match canonStr v with
    | some s => .ok [(c.toNat, some (.pBytes s))]
    | none => .error (.encodeError "string expected")
  else
    match v with
    | .vInt k => .ok [(c.toNat, some (.pInt k))]
    | _ => .error (.encodeError "integer expected")

mutual
/-- Modelled from the spec: recursive-descent encoding of one wire-type
against one value (section 4.2; the encoder is `apply_signature` in
`pystemd.dbuslib`, which is not under `src/`).  Containers open with a
token carrying their inner signature and close with a `(-1, none)`
marker, balanced 1:1 with the signature nesting; a shape mismatch is an
encoding failure. -/
def encode1 : SigT → Value → Except SigError (List Token)
  | .prim c, v => encodePrim c v
  | .arr e, .vList xs => do
    let inner ← encodeSeq e xs
    .ok ((97, some (.pBytes (sigStr e))) :: inner ++ [(-1, none)])
  | .struct ts, .vTuple xs => do
    let inner ← encodePairs ts xs
    .ok ((114, some (.pBytes (sigStrL ts))) :: inner ++ [(-1, none)])
  | .variant, .vVariant s w =>
    match parseSig s with
    | some [t] => do
      let inner ← encode1 t w
      .ok ((118, some (.pBytes s)) :: inner ++ [(-1, none)])
    | _ => .error (.encodeError "variant")
  | .dictEntry k w, .vTuple xs =>
    match xs with
    | [x, y] => do
      let innerK ← encode1 k x
      let innerV ← encode1 w y
      .ok ((101, some (.pBytes (sigStr k ++ sigStr w))) :: (innerK ++ innerV) ++ [(-1, none)])
    | _ => .error (.encodeError "dict entry")
  | _, _ => .error (.encodeError "shape mismatch")

/-- Encode a homogeneous sequence of array elements, in order. -/
def encodeSeq : SigT → List Value → Except SigError (List Token)
  | _, [] => .ok []
  | e, x :: xs => do
    let h ← encode1 e x
    let t ← encodeSeq e xs
    .ok (h ++ t)

/-- Encode struct fields positionally against their value tuple; an arity
mismatch is an encoding failure. -/
def encodePairs : List SigT → List Value → Except SigError (List Token)
  | [], [] => .ok []
  | t :: ts, x :: xs => do
    let h ← encode1 t x
    let r ← encodePairs ts xs
    .ok (h ++ r)
  | _, _ => .error (.encodeError "arity")
end

/-- Modelled from the spec: `apply_signature(signature, values)` of
`pystemd.dbuslib` (not under `src/`) — parse the signature into complete
types and encode each against the corresponding value, producing the
flattened token stream. -/
def apply_signature (sig : String) (values : List Value) : Except SigError (List Token) :=
  match parseSig sig with
  | none => .error (.encodeError "bad signature")
  | some ts => encodePairs ts values

/-- A property name as supplied by the caller: text or bytes.  The
compiler only looks names up after canonicalisation, and non-string keys
do not occur in any claim. -/
inductive Name where
  | str (s : String) : Name
  | bytes (b : String) : Name
deriving DecidableEq

/-- Modelled from the spec: `x2char_star` of `pystemd.utils` (not under
`src/`) reduces a text name to its canonical byte form and passes a bytes
name through unchanged.  Text and bytes share their `String` content in
this embedding, so encoding is the identity on that content. -/
def x2char_star : Name → String
  | .str s => s
  | .bytes b => b

/-- A catalog signature rule: either a fixed wire-type signature, or a
transformation taking the property name and value to a rewritten
`(name, signature, value)` triple (`none` models the Python `TypeError`
raised on a value of the wrong shape). -/
inductive SigRule where
  | fixed (sig : String) : SigRule
  | xform (f : String → Value → Option (String × String × Value)) : SigRule

/-- The seconds-to-microseconds rescale rules of the catalog: the value is
multiplied by `10 ^ 6` and the entry renamed to its `...USec` wire name
with wire type `"t"` (`lambda _, value: (target, b"t", int(value * 10 ** 6))`
in the source). -/
def usec_rescale (target : String) : String → Value → Option (String × String × Value) :=
  fun _ value =>
    match value with
    | .vInt k => some (target, "t", .vInt (k * 1000000))
    | _ => none

/-- The listen-shorthand wrap rules of the catalog: the value is wrapped
as a one-element list of `(tag, value)` pairs under the collective name
`"Listen"` with wire type `"a(ss)"`
(`lambda _, value: (b"Listen", b"a(ss)", [(tag, value)])` in the source). -/
def listen_wrap (tag : String) : String → Value → Option (String × String × Value) :=
  fun _ value => some ("Listen", "a(ss)", .vList [.vTuple [.vBytes tag, value]])

/-- The `_custom` escape-hatch rule: `lambda _, value: value` in the
source — the caller-supplied value is returned unchanged and unpacked as
the `(name, signature, value)` triple; a value that is not such a triple
is a `TypeError`. -/
def custom_rule : String → Value → Option (String × String × Value) :=
  fun _ value =>
    match value with
    | .vTuple [.vBytes n, .vBytes s, w] => some (n, s, w)
    | _ => none

/-- Catalog entries, part 1 (source order). -/
def CATALOG_1 : List (String × SigRule) :=
[  ("Service", .fixed "s"),
  ("Requires", .fixed "as"),
  ("Requisite", .fixed "as"),
  ("Wants", .fixed "as"),
  ("BindsTo", .fixed "as"),
  ("PartOf", .fixed "as"),
  ("RequiredBy", .fixed "as"),
  ("RequisiteOf", .fixed "as"),
  ("WantedBy", .fixed "as"),
  ("BoundBy", .fixed "as"),
  ("ConsistsOf", .fixed "as"),
  ("Conflicts", .fixed "as"),
  ("ConflictedBy", .fixed "as"),
  ("Before", .fixed "as"),
  ("After", .fixed "as"),
  ("OnFailure", .fixed "as"),
  ("Triggers", .fixed "as"),
  ("TriggeredBy", .fixed "as"),
  ("PropagatesReloadTo", .fixed "as"),
  ("ReloadPropagatedFrom", .fixed "as"),
  ("JoinsNamespaceOf", .fixed "as"),
  ("RequiresMountsFor", .fixed "as"),
  ("Documentation", .fixed "as"),
  ("SourcePath", .fixed "s"),
  ("StopWhenUnneeded", .fixed "b"),
  ("RefuseManualStart", .fixed "b"),
  ("RefuseManualStop", .fixed "b"),
  ("AllowIsolate", .fixed "b"),
  ("DefaultDependencies", .fixed "b"),
  ("OnFailureJobMode", .fixed "s"),
  ("IgnoreOnIsolate", .fixed "b"),
  ("JobTimeoutAction", .fixed "s"),
  ("JobTimeoutRebootArgument", .fixed "s"),
  ("Conditions", .fixed "a(sbbsi)"),
  ("Asserts", .fixed "a(sbbsi)"),
  ("FailureAction", .fixed "s"),
  ("SuccessAction", .fixed "s"),
  ("RebootArgument", .fixed "s")]

/-- Catalog entries, part 2 (source order). -/
def CATALOG_2 : List (String × SigRule) :=
[  ("CollectMode", .fixed "s"),
  ("User", .fixed "s"),
  ("Type", .fixed "s"),
  ("Group", .fixed "s"),
  ("Nice", .fixed "i"),
  ("DynamicUser", .fixed "b"),
  ("Personality", .fixed "s"),
  ("Description", .fixed "s"),
  ("NotifyAccess", .fixed "s"),
  ("BusName", .fixed "s"),
  ("RemainAfterExit", .fixed "b"),
  ("NoNewPrivileges", .fixed "b"),
  ("RootDirectoryStartOnly", .fixed "b"),
  ("PermissionsStartOnly", .fixed "b"),
  ("ExecStartPre", .fixed "a(sasb)"),
  ("ExecStart", .fixed "a(sasb)"),
  ("ExecStartPost", .fixed "a(sasb)"),
  ("ExecReload", .fixed "a(sasb)"),
  ("ExecStop", .fixed "a(sasb)"),
  ("ExecStopPost", .fixed "a(sasb)"),
  ("UtmpIdentifier", .fixed "s"),
  ("UtmpMode", .fixed "s"),
  ("PAMName", .fixed "s"),
  ("SELinuxContext", .fixed "s"),
  ("KeyringMode", .fixed "s"),
  ("SyslogLevelPrefix", .fixed "b"),
  ("MemoryDenyWriteExecute", .fixed "b"),
  ("RestrictRealtime", .fixed "b"),
  ("RemoveIPC", .fixed "b"),
  ("MountAPIVFS", .fixed "b"),
  ("CPUSchedulingResetOnFork", .fixed "b"),
  ("LockPersonality", .fixed "b"),
  ("SupplementaryGroups", .fixed "as"),
  ("SystemCallArchitectures", .fixed "as"),
  ("SystemCallFilter", .fixed "(bas)"),
  ("RuntimeMaxUSec", .fixed "t"),
  ("RuntimeMaxSec", .xform (usec_rescale "RuntimeMaxUSec"))]

/-- Catalog entries, part 3 (source order). -/
def CATALOG_3 : List (String × SigRule) :=
[  ("WatchdogUSec", .fixed "t"),
  ("WatchdogSec", .xform (usec_rescale "WatchdogUSec")),
  ("SyslogIdentifier", .fixed "s"),
  ("StandardInput", .fixed "s"),
  ("StandardOutput", .fixed "s"),
  ("StandardError", .fixed "s"),
  ("TTYPath", .fixed "s"),
  ("TTYReset", .fixed "b"),
  ("TTYVHangup", .fixed "b"),
  ("TTYVTDisallocate", .fixed "b"),
  ("IgnoreSIGPIPE", .fixed "b"),
  ("StandardInputFileDescriptor", .fixed "h"),
  ("StandardOutputFile", .fixed "s"),
  ("StandardOutputFileToAppend", .fixed "s"),
  ("StandardOutputFileDescriptor", .fixed "h"),
  ("StandardErrorFile", .fixed "s"),
  ("StandardErrorFileToAppend", .fixed "s"),
  ("StandardErrorFileDescriptor", .fixed "h"),
  ("StandardInputData", .fixed "ay"),
  ("Environment", .fixed "as"),
  ("PassEnvironment", .fixed "as"),
  ("UnsetEnvironment", .fixed "as"),
  ("EnvironmentFiles", .fixed "a(sb)"),
  ("OnActiveSec", .fixed "t"),
  ("RemainAfterElapse", .fixed "b"),
  ("OnUnitActiveSec", .fixed "t"),
  ("OnCalendar", .fixed "s"),
  ("OnStartupSec", .fixed "t"),
  ("OnBootSec", .fixed "t"),
  ("OnUnitInactiveSec", .fixed "t"),
  ("WorkingDirectory", .fixed "s"),
  ("RootDirectory", .fixed "s"),
  ("RootImage", .fixed "s"),
  ("BindPaths", .fixed "a(ssbt)"),
  ("BindReadOnlyPaths", .fixed "a(ssbt)"),
  ("ReadWritePaths", .fixed "as"),
  ("ReadOnlyPaths", .fixed "as")]

/-- Catalog entries, part 4 (source order). -/
def CATALOG_4 : List (String × SigRule) :=
[  ("ReadWriteDirectories", .fixed "as"),
  ("ReadOnlyDirectories", .fixed "as"),
  ("InaccessibleDirectories", .fixed "as"),
  ("InaccessiblePaths", .fixed "as"),
  ("TemporaryFileSystem", .fixed "a(ss)"),
  ("MountFlags", .fixed "t"),
  ("StateDirectory", .fixed "as"),
  ("CacheDirectory", .fixed "as"),
  ("LogsDirectory", .fixed "as"),
  ("RuntimeDirectory", .fixed "as"),
  ("RuntimeDirectoryPreserve", .fixed "s"),
  ("ConfigurationDirectory", .fixed "as"),
  ("PrivateTmp", .fixed "b"),
  ("PrivateDevices", .fixed "b"),
  ("PrivateNetwork", .fixed "b"),
  ("PrivateUsers", .fixed "b"),
  ("ProtectKernelTunables", .fixed "b"),
  ("ProtectKernelModules", .fixed "b"),
  ("ProtectControlGroups", .fixed "b"),
  ("ProtectHome", .fixed "s"),
  ("ProtectSystem", .fixed "s"),
  ("KillMode", .fixed "s"),
  ("KillSignal", .fixed "i"),
  ("SendSIGHUP", .fixed "b"),
  ("SendSIGKILL", .fixed "b"),
  ("RestartPreventExitStatus", .fixed "(aiai)"),
  ("RestartForceExitStatus", .fixed "(aiai)"),
  ("SuccessExitStatus", .fixed "(aiai)"),
  ("LimitCPU", .fixed "t"),
  ("LimitCPUSoft", .fixed "t"),
  ("LimitFSIZE", .fixed "t"),
  ("LimitFSIZESoft", .fixed "t"),
  ("LimitDATA", .fixed "t"),
  ("LimitDATASoft", .fixed "t"),
  ("LimitSTACK", .fixed "t"),
  ("LimitSTACKSoft", .fixed "t"),
  ("LimitCORE", .fixed "t")]

/-- Catalog entries, part 5 (source order). -/
def CATALOG_5 : List (String × SigRule) :=
[  ("LimitCORESoft", .fixed "t"),
  ("LimitRSS", .fixed "t"),
  ("LimitRSSSoft", .fixed "t"),
  ("LimitNOFILE", .fixed "t"),
  ("LimitNOFILESoft", .fixed "t"),
  ("LimitAS", .fixed "t"),
  ("LimitASSoft", .fixed "t"),
  ("LimitNPROC", .fixed "t"),
  ("LimitNPROCSoft", .fixed "t"),
  ("LimitMEMLOCK", .fixed "t"),
  ("LimitMEMLOCKSoft", .fixed "t"),
  ("LimitLOCKS", .fixed "t"),
  ("LimitLOCKSSoft", .fixed "t"),
  ("LimitSIGPENDING", .fixed "t"),
  ("LimitSIGPENDINGSoft", .fixed "t"),
  ("LimitMSGQUEUE", .fixed "t"),
  ("LimitMSGQUEUESoft", .fixed "t"),
  ("LimitNICE", .fixed "t"),
  ("LimitNICESoft", .fixed "t"),
  ("LimitRTPRIO", .fixed "t"),
  ("LimitRTPRIOSoft", .fixed "t"),
  ("LimitRTTIME", .fixed "t"),
  ("LimitRTTIMESoft", .fixed "t"),
  ("DevicePolicy", .fixed "s"),
  ("Slice", .fixed "s"),
  ("Delegate", .fixed "b"),
  ("CPUAccounting", .fixed "b"),
  ("MemoryAccounting", .fixed "b"),
  ("MemoryLow", .fixed "t"),
  ("MemoryLowScale", .fixed "u"),
  ("MemoryHigh", .fixed "t"),
  ("MemoryHighScale", .fixed "u"),
  ("MemoryMax", .fixed "t"),
  ("MemoryMaxScale", .fixed "u"),
  ("MemorySwapMax", .fixed "t"),
  ("MemorySwapMaxScale", .fixed "u"),
  ("MemoryLimit", .fixed "t")]

/-- Catalog entries, part 6 (source order). -/
def CATALOG_6 : List (String × SigRule) :=
[  ("MemoryLimitScale", .fixed "u"),
  ("IOAccounting", .fixed "b"),
  ("BlockIOAccounting", .fixed "b"),
  ("TasksAccounting", .fixed "b"),
  ("TasksMax", .fixed "t"),
  ("TasksMaxScale", .fixed "u"),
  ("CPUQuota", .xform (usec_rescale "CPUQuotaPerSecUSec")),
  ("CPUQuotaPerSecUSec", .fixed "t"),
  ("IPAccounting", .fixed "b"),
  ("IPAddressAllow", .fixed "a(iayu)"),
  ("IPAddressDeny", .fixed "a(iayu)"),
  ("TimersMonotonic", .fixed "a(st)"),
  ("WakeSystem", .fixed "b"),
  ("Persistent", .fixed "b"),
  ("Backlog", .fixed "u"),
  ("TimeoutUSec", .fixed "t"),
  ("BindToDevice", .fixed "s"),
  ("SocketUser", .fixed "s"),
  ("SocketGroup", .fixed "s"),
  ("SocketMode", .fixed "u"),
  ("DirectoryMode", .fixed "u"),
  ("Accept", .fixed "b"),
  ("Writable", .fixed "b"),
  ("KeepAlive", .fixed "b"),
  ("KeepAliveTimeUSec", .fixed "t"),
  ("KeepAliveIntervalUSec", .fixed "t"),
  ("KeepAliveProbes", .fixed "u"),
  ("DeferAcceptUSec", .fixed "t"),
  ("NoDelay", .fixed "b"),
  ("Priority", .fixed "i"),
  ("ReceiveBuffer", .fixed "t"),
  ("SendBuffer", .fixed "t"),
  ("IPTOS", .fixed "i"),
  ("IPTTL", .fixed "i"),
  ("PipeSize", .fixed "t"),
  ("FreeBind", .fixed "b"),
  ("Transparent", .fixed "b")]

/-- Catalog entries, part 7 (source order). -/
def CATALOG_7 : List (String × SigRule) :=
[  ("Broadcast", .fixed "b"),
  ("PassCredentials", .fixed "b"),
  ("PassSecurity", .fixed "b"),
  ("RemoveOnStop", .fixed "b"),
  ("Listen", .fixed "a(ss)"),
  ("ListenStream", .xform (listen_wrap "Stream")),
  ("ListenDatagram", .xform (listen_wrap "Datagram")),
  ("ListenSequentialPacket", .xform (listen_wrap "SequentialPacket")),
  ("ListenNetlink", .xform (listen_wrap "Netlink")),
  ("ListenSpecial", .xform (listen_wrap "Special")),
  ("ListenMessageQueue", .xform (listen_wrap "MessageQueue")),
  ("ListenFIFO", .xform (listen_wrap "FIFO")),
  ("ListenUSBFunction", .xform (listen_wrap "USBFunction")),
  ("Symlinks", .fixed "as"),
  ("Mark", .fixed "i"),
  ("MaxConnections", .fixed "u"),
  ("MaxConnectionsPerSource", .fixed "u"),
  ("MessageQueueMaxMessages", .fixed "x"),
  ("MessageQueueMessageSize", .fixed "x"),
  ("TCPCongestion", .fixed "s"),
  ("ReusePort", .fixed "b"),
  ("SmackLabel", .fixed "s"),
  ("SmackLabelIPIn", .fixed "s"),
  ("SmackLabelIPOut", .fixed "s"),
  ("ControlPID", .fixed "u"),
  ("Result", .fixed "s"),
  ("NConnections", .fixed "u"),
  ("NAccepted", .fixed "u"),
  ("NRefused", .fixed "u"),
  ("FileDescriptorName", .fixed "s"),
  ("SocketProtocol", .fixed "i"),
  ("TriggerLimitIntervalUSec", .fixed "t"),
  ("TriggerLimitBurst", .fixed "u"),
  ("UID", .fixed "u"),
  ("GID", .fixed "u"),
  ("_custom", .xform custom_rule)]

/-- The `KNOWN_UNIT_SIGNATURES` catalog of
`pystemd/systemd1/unit_signatures.py`, entry for entry in source order
(the source lists `JoinsNamespaceOf` twice with the same signature; a
Python dict keeps one). -/
def CATALOG_ENTRIES : List (String × SigRule) :=
  CATALOG_1 ++ CATALOG_2 ++ CATALOG_3 ++ CATALOG_4 ++ CATALOG_5 ++ CATALOG_6 ++ CATALOG_7

/-- Catalog lookup by property name only: the first (and only) entry with
the given name, `none` modelling the `KeyError` raised for an absent
name. -/
def KNOWN_UNIT_SIGNATURES (name : String) : Option SigRule :=
  CATALOG_ENTRIES.lookup name

/-- The `callable(signature)` branch of `signature_array`: a fixed
signature is used as is with the property name and value unchanged; a
transformation is applied to `(name, value)` and its output triple
unpacked. -/
def resolveCallable : SigRule → String → Value → Except SigError (String × String × Value)
  | .fixed s, n, v => .ok (n, s, v)
  | .xform f, n, v =>
    match f n v with
    | some t => .ok t
    | none => .error (.typeError n)

/-- The loop of `signature_array`: `args` is the token accumulator; each
property is canonicalised, looked up, transformed if its rule is
callable, and appended as struct-open, name string, variant signature,
encoded value tokens, and two close markers. -/
def signature_loop : List Token → List (Name × Value) → Except SigError (List Token)
  | args, [] => .ok args
  | args, (pn, pv) :: rest =>
    let prop_name := x2char_star pn
    match KNOWN_UNIT_SIGNATURES prop_name with
    | none => .error (.keyError prop_name)
    | some signature =>
      match resolveCallable signature prop_name pv with
      | .error e => .error e
      | .ok (name2, sig2, value2) =>
        match apply_signature sig2 [value2] with
        | .error e => .error e
        | .ok enc =>
          signature_loop
            (args ++ [(114, some (.pBytes "sv")), (115, some (.pBytes name2)),
                      (118, some (.pBytes sig2))] ++ enc ++ [(-1, none), (-1, none)])
            rest

/-- `signature_array` of `pystemd/systemd1/unit_signatures.py`: open the
`a(sv)` array, run the per-property loop in the caller's order, and close
the array. -/
def signature_array (properties : List (Name × Value)) : Except SigError (List Token) :=
  match signature_loop [(97, some (.pBytes "(sv)"))] properties with
  | .error e => .error e
  | .ok args => .ok (args ++ [(-1, none)])

/-- The token block `signature_array` emits for one resolved property:
struct-open carrying `"sv"`, the property name as a string token, the
variant token carrying the wire signature, the encoder's tokens for the
value, and the variant- and struct-close markers. -/
def entry_tokens (name sig : String) (enc : List Token) : List Token :=
  [(114, some (.pBytes "sv")), (115, some (.pBytes name)),
   (118, some (.pBytes sig))] ++ enc ++ [(-1, none), (-1, none)]

/-- The eight listen-shorthand catalog names with their kind tags. -/
def LISTEN_SHORTHANDS : List (String × String) :=
  [("ListenStream", "Stream"), ("ListenDatagram", "Datagram"),
   ("ListenSequentialPacket", "SequentialPacket"), ("ListenNetlink", "Netlink"),
   ("ListenSpecial", "Special"), ("ListenMessageQueue", "MessageQueue"),
   ("ListenFIFO", "FIFO"), ("ListenUSBFunction", "USBFunction")]

/-- The encoder's token stream for a wrapped listen value: the `a(ss)`
array holding one `(tag, address)` struct. -/
def listen_value_tokens (tag addr : String) : List Token :=
  [(97, some (.pBytes "(ss)")), (114, some (.pBytes "ss")),
   (115, some (.pBytes tag)), (115, some (.pBytes addr)), (-1, none), (-1, none)]

/-- Modelled from the spec: the observable state of an `SDObject`
(`pystemd/base.py`, not under `src/`) — whether it is loaded, and how many
times `load()` and `close()` have run (sections 5 and 6: scoped
acquisition and unconditional cleanup). -/
structure SDState where
  loaded : Bool
  loadCount : Nat
  closeCount : Nat
deriving DecidableEq

/-- Modelled from the spec: `load()` fetches and registers the interface
proxies, leaving the object loaded. -/
def sd_load (s : SDState) : SDState :=
  { s with loaded := true, loadCount := s.loadCount + 1 }

/-- Modelled from the spec: scope entry triggers `load()` if the object is
not already loaded (section 6). -/
def sd_enter (s : SDState) : SDState :=
  if s.loaded then s else sd_load s

/-- Modelled from the spec: `close()` releases the bus handle; exit runs
it unconditionally. -/
def sd_close (s : SDState) : SDState :=
  { s with closeCount := s.closeCount + 1 }

/-- Modelled from the spec: a scoped use of an `SDObject` — enter, run the
body (which may end in a failure), then run the exit cleanup
unconditionally, after which the body's outcome is what the caller sees. -/
def scoped_use (s : SDState) (body : SDState → SDState × Option String) :
    SDState × Option String :=
  let s1 := sd_enter s
  let r := body s1
  (sd_close r.1, r.2)

/-- Auxiliary loop characterisation used for C1: running the compiler loop
over properties whose names resolve to fixed catalog signatures, and whose
values the encoder accepts, appends one entry block per property, in
order, to the accumulator. -/
theorem signature_loop_fixed_entries
    (es : List (String × String × Value × List Token)) (args : List Token)
    (h : ∀ e ∈ es, KNOWN_UNIT_SIGNATURES e.1 = some (.fixed e.2.1) ∧
        apply_signature e.2.1 [e.2.2.1] = .ok e.2.2.2) :
    signature_loop args (es.map fun e => (Name.bytes e.1, e.2.2.1)) =
      .ok (args ++ es.flatMap fun e => entry_tokens e.1 e.2.1 e.2.2.2) := by
  induction es generalizing args with
  | nil => simp [signature_loop]
  | cons e es ih =>
    obtain ⟨h1, h2⟩ := h e (List.mem_cons_self e es)
    have hrest : ∀ x ∈ es, KNOWN_UNIT_SIGNATURES x.1 = some (.fixed x.2.1) ∧
        apply_signature x.2.1 [x.2.2.1] = .ok x.2.2.2 :=
      fun x hx => h x (List.mem_cons_of_mem e hx)
    simp only [List.map_cons, signature_loop, x2char_star, h1, resolveCallable, h2,
      List.flatMap_cons]
    rw [ih _ hrest]
    simp [entry_tokens, List.append_assoc]

/-- C1: for properties whose names resolve to fixed catalog signatures,
`signature_array` emits exactly the `(sv)` array-open token, then one
block per `(name, value)` pair in the caller's order (struct-open, name
string token, variant token with the wire signature, the encoder's tokens
for the value, variant-close and struct-close), then the final
array-close; in particular the two compilations of the same two
primitive-typed entries in the two orders yield the entry blocks in those
two distinct orders — compilation never reorders. -/
theorem c1_compiler_emits_entries_in_order
    (es : List (String × String × Value × List Token))
    (h : ∀ e ∈ es, KNOWN_UNIT_SIGNATURES e.1 = some (.fixed e.2.1) ∧
        apply_signature e.2.1 [e.2.2.1] = .ok e.2.2.2) :
    signature_array (es.map fun e => (Name.bytes e.1, e.2.2.1)) =
      .ok ([(97, some (.pBytes "(sv)"))] ++
           (es.flatMap fun e => entry_tokens e.1 e.2.1 e.2.2.2) ++ [(-1, none)]) ∧
    signature_array [(.bytes "Nice", .vInt 1), (.bytes "Mark", .vInt 2)] =
      .ok ([(97, some (.pBytes "(sv)"))] ++
           (entry_tokens "Nice" "i" [(105, some (.pInt 1))] ++
            entry_tokens "Mark" "i" [(105, some (.pInt 2))]) ++ [(-1, none)]) ∧
    signature_array [(.bytes "Mark", .vInt 2), (.bytes "Nice", .vInt 1)] =
      .ok ([(97, some (.pBytes "(sv)"))] ++
           (entry_tokens "Mark" "i" [(105, some (.pInt 2))] ++
            entry_tokens "Nice" "i" [(105, some (.pInt 1))]) ++ [(-1, none)]) ∧
    (entry_tokens "Nice" "i" [(105, some (.pInt 1))] ++
      entry_tokens "Mark" "i" [(105, some (.pInt 2))]) ≠
    (entry_tokens "Mark" "i" [(105, some (.pInt 2))] ++
      entry_tokens "Nice" "i" [(105, some (.pInt 1))]) := by
  refine ⟨?_, rfl, rfl, by decide⟩
  simp [signature_array, signature_loop_fixed_entries es _ h]

/-- Witness for C1 at the singleton fixed-signature property `Nice`. -/
theorem c1_compiler_emits_entries_in_order_witness :
    signature_array [(Name.bytes "Nice", Value.vInt 1)] =
      .ok ([(97, some (.pBytes "(sv)"))] ++
           entry_tokens "Nice" "i" [(105, some (.pInt 1))] ++ [(-1, none)]) := by
  have h := c1_compiler_emits_entries_in_order
    [("Nice", "i", Value.vInt 1, [(105, some (.pInt 1))])]
    (by intro e he; rw [List.mem_singleton] at he; subst he; exact ⟨rfl, rfl⟩)
  simpa using h.1

/-- C2: a property name absent from the catalog makes the compilation of
the single-entry mapping fail with a lookup error naming that property:
no token stream is returned and no encoding work is reflected in the
result. -/
theorem c2_unknown_name_aborts (n : Name) (v : Value)
    (h : KNOWN_UNIT_SIGNATURES (x2char_star n) = none) :
    signature_array [(n, v)] = .error (.keyError (x2char_star n)) := by
  simp [signature_array, signature_loop, h]

/-- Witness for C2 at a name absent from the catalog. -/
theorem c2_unknown_name_aborts_witness :
    KNOWN_UNIT_SIGNATURES (x2char_star (.str "NotAUnitProperty")) = none ∧
    signature_array [(.str "NotAUnitProperty", .vInt 1)] =
      .error (.keyError "NotAUnitProperty") :=
  ⟨rfl, c2_unknown_name_aborts (.str "NotAUnitProperty") (.vInt 1) rfl⟩

/-- C3: compiling `RuntimeMaxSec` with an integer number of seconds `v`
produces exactly one struct entry named `RuntimeMaxUSec` with wire type
`"t"` and integer value `v * 10 ^ 6`. -/
theorem c3_runtime_max_sec_rescaled (v : Int) :
    signature_array [(.str "RuntimeMaxSec", .vInt v)] =
      .ok [(97, some (.pBytes "(sv)")),
           (114, some (.pBytes "sv")), (115, some (.pBytes "RuntimeMaxUSec")),
           (118, some (.pBytes "t")), (116, some (.pInt (v * 1000000))),
           (-1, none), (-1, none), (-1, none)] := rfl

/-- C4: compiling the `ListenStream` shorthand with any address `a`
produces exactly one struct entry named `Listen` with wire type `a(ss)`
whose value is the one-element list holding the pair `("Stream", a)`. -/
theorem c4_listen_stream_wrapped (a : String) :
    signature_array [(.str "ListenStream", .vStr a)] =
      .ok [(97, some (.pBytes "(sv)")),
           (114, some (.pBytes "sv")), (115, some (.pBytes "Listen")),
           (118, some (.pBytes "a(ss)")),
           (97, some (.pBytes "(ss)")), (114, some (.pBytes "ss")),
           (115, some (.pBytes "Stream")), (115, some (.pBytes a)),
           (-1, none), (-1, none), (-1, none), (-1, none), (-1, none)] := rfl

/-- Each listen-shorthand catalog entry is the wrap rule for its tag. -/
theorem listen_shorthand_rule (n t : String) (h : (n, t) ∈ LISTEN_SHORTHANDS) :
    KNOWN_UNIT_SIGNATURES n = some (.xform (listen_wrap t)) := by
  fin_cases h <;> rfl

/-- C5: two listen shorthands supplied in one property mapping compile to
two separate struct entries, each named `Listen` and each carrying its own
single-element `(tag, address)` list — never one merged multi-element
list. -/
theorem c5_shorthands_never_merged (n1 t1 n2 t2 a b : String)
    (h1 : (n1, t1) ∈ LISTEN_SHORTHANDS) (h2 : (n2, t2) ∈ LISTEN_SHORTHANDS) :
    signature_array [(.str n1, .vStr a), (.str n2, .vStr b)] =
      .ok ([(97, some (.pBytes "(sv)"))] ++
           entry_tokens "Listen" "a(ss)" (listen_value_tokens t1 a) ++
           entry_tokens "Listen" "a(ss)" (listen_value_tokens t2 b) ++
           [(-1, none)]) := by
  fin_cases h1 <;> fin_cases h2 <;> rfl

/-- Witness for C5 at `ListenStream` plus `ListenDatagram`. -/
theorem c5_shorthands_never_merged_witness :
    signature_array [(.str "ListenStream", .vStr "127.0.0.1:80"),
                     (.str "ListenDatagram", .vStr "10.0.0.1:53")] =
      .ok ([(97, some (.pBytes "(sv)"))] ++
           entry_tokens "Listen" "a(ss)" (listen_value_tokens "Stream" "127.0.0.1:80") ++
           entry_tokens "Listen" "a(ss)" (listen_value_tokens "Datagram" "10.0.0.1:53") ++
           [(-1, none)]) :=
  c5_shorthands_never_merged "ListenStream" "Stream" "ListenDatagram" "Datagram"
    "127.0.0.1:80" "10.0.0.1:53" (by simp [LISTEN_SHORTHANDS]) (by simp [LISTEN_SHORTHANDS])

/-- C6: compiling the empty property mapping yields exactly the array-open
token carrying `(sv)` and one close marker. -/
theorem c6_empty_mapping_two_tokens :
    signature_array [] = .ok [(97, some (.pBytes "(sv)")), (-1, none)] := rfl

/-- C7: when a property's catalog rule is a transformation, the emitted
struct entry uses the transformation's output name and output wire
signature directly — the output is fully determined by the triple the
transformation returns, with no second catalog lookup of the output
name. -/
theorem c7_transformation_output_not_relooked_up (n : Name) (v : Value)
    (f : String → Value → Option (String × String × Value))
    (n2 s2 : String) (v2 : Value) (tk : List Token)
    (h1 : KNOWN_UNIT_SIGNATURES (x2char_star n) = some (.xform f))
    (h2 : f (x2char_star n) v = some (n2, s2, v2))
    (h3 : apply_signature s2 [v2] = .ok tk) :
    signature_array [(n, v)] =
      .ok ([(97, some (.pBytes "(sv)"))] ++ entry_tokens n2 s2 tk ++ [(-1, none)]) := by
  simp [signature_array, signature_loop, h1, resolveCallable, h2, h3, entry_tokens]

/-- Witness for C7: a `_custom` transformation returning the name
`Listen` with signature `"s"` — although `Listen` has its own catalog
entry with the different signature `a(ss)`, the emitted variant signature
is the transformation's `"s"`. -/
theorem c7_transformation_output_not_relooked_up_witness :
    KNOWN_UNIT_SIGNATURES "Listen" = some (.fixed "a(ss)") ∧
    signature_array [(.str "_custom", .vTuple [.vBytes "Listen", .vBytes "s", .vBytes "/run/sock"])] =
      .ok ([(97, some (.pBytes "(sv)"))] ++
           entry_tokens "Listen" "s" [(115, some (.pBytes "/run/sock"))] ++ [(-1, none)]) :=
  ⟨rfl, c7_transformation_output_not_relooked_up (.str "_custom")
    (.vTuple [.vBytes "Listen", .vBytes "s", .vBytes "/run/sock"]) custom_rule
    "Listen" "s" (.vBytes "/run/sock") [(115, some (.pBytes "/run/sock"))] rfl rfl rfl⟩

/-- C8: the `_custom` escape hatch is a passthrough — compiling
`{"_custom": (n, sg, v)}` yields exactly the same token stream as
compiling a property named `n` whose fixed catalog signature is `sg` with
value `v`. -/
theorem c8_custom_is_passthrough (n sg : String) (v : Value)
    (h : KNOWN_UNIT_SIGNATURES n = some (.fixed sg)) :
    signature_array [(.str "_custom", .vTuple [.vBytes n, .vBytes sg, v])] =
      signature_array [(.bytes n, v)] := by
  have hc : KNOWN_UNIT_SIGNATURES "_custom" = some (.xform custom_rule) := rfl
  simp [signature_array, signature_loop, x2char_star, hc, h, resolveCallable, custom_rule]

/-- Witness for C8 at the fixed-signature property `Nice`. -/
theorem c8_custom_is_passthrough_witness :
    signature_array [(.str "_custom", .vTuple [.vBytes "Nice", .vBytes "i", .vInt 5])] =
      signature_array [(.bytes "Nice", .vInt 5)] :=
  c8_custom_is_passthrough "Nice" "i" (.vInt 5) rfl

/-- C9: entering a scoped use of an unloaded object triggers `load()`
exactly once, and when the scoped body ends in a failure the exit cleanup
still runs exactly once while the body's original failure propagates
unchanged to the caller. -/
theorem c9_scoped_failure_cleanup (s : SDState) (body : SDState → SDState × Option String)
    (s2 : SDState) (e : String)
    (h0 : s.loaded = false) (hb : body (sd_enter s) = (s2, some e)) :
    scoped_use s body = (sd_close s2, some e) ∧
    (sd_enter s).loadCount = s.loadCount + 1 ∧
    (sd_close s2).closeCount = s2.closeCount + 1 := by
  refine ⟨?_, ?_, rfl⟩
  · simp [scoped_use, hb]
  · simp [sd_enter, h0, sd_load]

/-- Witness for C9: a fresh unloaded object whose scoped body fails. -/
theorem c9_scoped_failure_cleanup_witness :
    scoped_use ⟨false, 0, 0⟩ (fun st => (st, some "boom")) =
      (⟨true, 1, 1⟩, some "boom") := by
  have h := c9_scoped_failure_cleanup ⟨false, 0, 0⟩ (fun st => (st, some "boom"))
    (sd_enter ⟨false, 0, 0⟩) "boom" rfl rfl
  simpa [sd_enter, sd_load, sd_close] using h.1

/-- C10: property names are canonicalised before catalog lookup, so a
text name and the same name as bytes compile to exactly the same token
stream, whatever value and further properties accompany them. -/
theorem c10_text_and_bytes_names_agree (n : String) (v : Value)
    (props : List (Name × Value)) :
    signature_array ((.str n, v) :: props) = signature_array ((.bytes n, v) :: props) := rfl
